import Mathlib

/-!
Shallow embedding of the game-logic core of the snake-game repository
(src/game.h, src/window.h, src/snake.c) and proofs about it.

Modelling conventions:
* C `int` values (coordinates, scores, status codes) are `Int`.
* The C grid is a heap-allocated 60 x 60 array of `GridCell`, indexed
  `grid[x][y]`; it is embedded as a total function `Int -> Int -> GridCell`.
  Cells outside `[0, GAMEGRIDROWS) x [0, GAMEGRIDCOLS)` stand for memory the
  program never allocated (an access there is undefined behaviour in C); the
  embedding gives such cells no flags and lets writes there land in the
  function like any other, so that every operation stays total.
* The snake's doubly linked node list is embedded as the head node plus the
  list of trailing nodes (the `nextNode` chain); the `prevNode` back pointer
  of the C list is recovered, where the code uses it, by threading the
  already-updated predecessor through the recursion, exactly as `moveSnake`
  walks the list after updating each node.
* `rand()` is embedded as an explicit stream `rnd : Nat -> Nat` of draws,
  consumed two per rejection-sampling iteration, and the unbounded
  `while (coordinate_invalid)` loop takes a fuel argument and returns
  `Option`: `none` models the loop not having terminated within `fuel`
  iterations.
* Win32 calls (InvalidateRect, SetTimer, KillTimer, fonts, logging) and the
  `score_text` / `update_score` repaint bookkeeping have no game-logic
  effect and are not modelled; `logError` terminates the process in C and is
  reached only from states the claims do not quantify over.
* The redundant per-cell copies of the cell's own indices (`GridCell.x`,
  `GridCell.y`), written once at initialization and never read, are omitted.
-/

/-- Macro constants from src/game.h. -/
def GAMEGRIDROWS : Int := 60

def GAMEGRIDCOLS : Int := 60

def SNAKEHEADSTARTX : Int := GAMEGRIDCOLS / 2

def SNAKEHEADSTARTY : Int := GAMEGRIDROWS / 2

def DIRECTION_UP : Int := 0

def DIRECTION_DOWN : Int := 1

def DIRECTION_LEFT : Int := 2

def DIRECTION_RIGHT : Int := 3

def EATS_FRUIT : Int := 4

def COLLISION : Int := 5

def COLLISION_RANGE : Int := 1

def FRUIT_MARGIN : Int := 3

def NO_COLLISION : Int := 6

def PAUSE_GAME : Int := 7

def START_GAME : Int := 8

def GAME_OVER : Int := 9

/-- One cell of the game grid (struct GridCell of src/game.h, occupancy
flags only). -/
structure GridCell where
  containsHead : Bool
  containsSnake : Bool
  containsWall : Bool
  containsFruit : Bool
deriving DecidableEq

/-- The 60 x 60 cell array `GameBoardGrid`, as a total function on `Int`
indices (see the conventions above for out-of-bounds cells). -/
abbrev Grid := Int → Int → GridCell

/-- Mutation of a single array slot `grid[x][y]`. -/
def updateCell (g : Grid) (x y : Int) (f : GridCell → GridCell) : Grid :=
  fun a b => if a = x ∧ b = y then f (g a b) else g a b

/-- struct Coord of src/game.h. -/
structure Coord where
  x : Int
  y : Int
deriving DecidableEq

/-- struct SnakeNode of src/game.h (coordinates only; the `prevNode` and
`nextNode` pointers are the list structure of `Snake`). -/
structure SnakeNode where
  x : Int
  y : Int
  prev_x : Int
  prev_y : Int
deriving DecidableEq

/-- The global `snake` (struct SnakeHead): head node, the chain of trailing
nodes, and the movement direction.  `node_diameter` is render-only and
omitted. -/
structure Snake where
  node : SnakeNode
  tail : List SnakeNode
  movement_direction : Int
deriving DecidableEq

/-- The game-logic fields of the global `gameBoard` (struct GameBoard);
window handles, pixel geometry, fonts, timer ids and the score label texts
are render-only and omitted. -/
structure GameBoard where
  grid : Grid
  score : Int
  score_increment : Int
  gameStatus : Int
  fruitLoc : Coord

/-- The two mutable globals of src/game.h bundled into one state. -/
structure GameState where
  board : GameBoard
  snake : Snake

/-- Border predicate of initializeGameGrid / resetGameGrid:
`i == 0 || j == 0 || i == rows-1 || j == cols-1`. -/
def borderWall (i j : Int) : Bool :=
  i = 0 ∨ j = 0 ∨ i = GAMEGRIDROWS - 1 ∨ j = GAMEGRIDCOLS - 1

/-- The index range the C loops actually write: `0 <= i < rows`,
`0 <= j < cols`. -/
def inGridBounds (i j : Int) : Bool :=
  0 ≤ i ∧ i < GAMEGRIDROWS ∧ 0 ≤ j ∧ j < GAMEGRIDCOLS

/-- The cell value both initializeGameGrid and resetGameGrid store at
slot (i, j). -/
def initCell (i j : Int) : GridCell :=
  { containsHead := false
    containsSnake := false
    containsWall := borderWall i j
    containsFruit := false }

/-- Never-allocated memory outside the 60 x 60 array (reads there are
undefined behaviour in C); the model gives it no flags. -/
def outOfBoundsCell : GridCell :=
  { containsHead := false
    containsSnake := false
    containsWall := false
    containsFruit := false }

/-- The grid produced by initializeGameGrid. -/
def initGrid : Grid :=
  fun i j => if inGridBounds i j then initCell i j else outOfBoundsCell

/-- resetGameGrid of src/game.h: rewrite every in-bounds cell, leave
everything else as it was. -/
def resetGameGrid (s : GameState) : GameState :=
  { s with board := { s.board with
      grid := fun i j => if inGridBounds i j then initCell i j else s.board.grid i j } }

/-- The while loop of moveSnake: each trailing node saves its position into
`prev_x`/`prev_y`, clears its grid cell's snake flag, takes over its
predecessor's saved previous position (`ptr->prevNode->prev_x/_y`), and sets
the snake flag there; `pred` is the already-updated predecessor node. -/
def moveSnakeBody (g : Grid) (pred : SnakeNode) :
    List SnakeNode → List SnakeNode × Grid
  | [] => ([], g)
  | n :: rest =>
    let n1 : SnakeNode :=
      { x := pred.prev_x, y := pred.prev_y, prev_x := n.x, prev_y := n.y }
    let g1 := updateCell g n.x n.y (fun c => { c with containsSnake := false })
    let g2 := updateCell g1 n1.x n1.y (fun c => { c with containsSnake := true })
    let res := moveSnakeBody g2 n1 rest
    (n1 :: res.1, res.2)

/-- The head update of moveSnake: the node saves its position into
`prev_x`/`prev_y`, then steps one cell along the movement direction (and
does not step at all on any other direction value). -/
def movedHead (node : SnakeNode) (dir : Int) : SnakeNode :=
  let h1 : SnakeNode := { node with prev_x := node.x, prev_y := node.y }
  if dir = DIRECTION_UP then { h1 with y := h1.y - 1 }
  else if dir = DIRECTION_DOWN then { h1 with y := h1.y + 1 }
  else if dir = DIRECTION_LEFT then { h1 with x := h1.x - 1 }
  else if dir = DIRECTION_RIGHT then { h1 with x := h1.x + 1 }
  else h1

/-- moveSnake of src/game.h: the head saves its position, its cell's head
flag is cleared, the head steps one cell along the movement direction, the
head flag is set at the new cell, and the trailing nodes follow. -/
def moveSnake (s : GameState) : GameState :=
  let h := s.snake.node
  let g1 := updateCell s.board.grid h.x h.y (fun c => { c with containsHead := false })
  let h2 := movedHead h s.snake.movement_direction
  let g2 := updateCell g1 h2.x h2.y (fun c => { c with containsHead := true })
  let res := moveSnakeBody g2 h2 s.snake.tail
  { board := { s.board with grid := res.2 },
    snake := { s.snake with node := h2, tail := res.1 } }

/-- changeSnakeDirection of src/game.h. -/
def changeSnakeDirection (direction : Int) (s : GameState) : GameState :=
  { s with snake := { s.snake with movement_direction := direction } }

/-- incrementScore of src/game.h (the `score_text` repaint bookkeeping is
render-only). -/
def incrementScore (s : GameState) : GameState :=
  { s with board := { s.board with score := s.board.score + s.board.score_increment } }

/-- The offset pairs (i, j) visited, in order, by the nested
`for (i = -COLLISION_RANGE; i <= COLLISION_RANGE; i++)
 for (j = -COLLISION_RANGE; j <= COLLISION_RANGE; j++)` loops of
collisionCheck and generateCoordinate (COLLISION_RANGE = 1). -/
def collisionOffsets : List (Int × Int) :=
  [(-1, -1), (-1, 0), (-1, 1), (0, -1), (0, 0), (0, 1), (1, -1), (1, 0), (1, 1)]

/-- The nested loops of collisionCheck: the first offset whose cell has a
wall returns COLLISION only when both offsets are nonzero (`i != 0 && j != 0`),
otherwise the scan continues; a fruit at a non-wall cell returns EATS_FRUIT;
a full scan returns NO_COLLISION. -/
def collisionScan (g : Grid) (hx hy : Int) : List (Int × Int) → Int
  | [] => NO_COLLISION
  | (i, j) :: rest =>
    if (g (hx + i) (hy + j)).containsWall then
      if i ≠ 0 ∧ j ≠ 0 then COLLISION else collisionScan g hx hy rest
    else if (g (hx + i) (hy + j)).containsFruit then EATS_FRUIT
    else collisionScan g hx hy rest

/-- collisionCheck of src/game.h (the uncommented version): a snake flag at
the head's own cell is COLLISION, else the widened 3 x 3 scan decides. -/
def collisionCheck (s : GameState) : Int :=
  if (s.board.grid s.snake.node.x s.snake.node.y).containsSnake then COLLISION
  else collisionScan s.board.grid s.snake.node.x s.snake.node.y collisionOffsets

/-- One iteration's sample of generateCoordinate:
`rand() % (GAMEGRIDCOLS - 2*FRUIT_MARGIN) + FRUIT_MARGIN` for x, then the
same with GAMEGRIDROWS for y, drawing the k-th pair from the stream. -/
def candidateCoord (rnd : Nat → Nat) (k : Nat) : Coord :=
  { x := (rnd (2 * k) : Int) % (GAMEGRIDCOLS - 2 * FRUIT_MARGIN) + FRUIT_MARGIN
    y := (rnd (2 * k + 1) : Int) % (GAMEGRIDROWS - 2 * FRUIT_MARGIN) + FRUIT_MARGIN }

/-- The validity test of generateCoordinate's loop body: the candidate is
invalid when some offset pair lines it up with the snake head
(`coordinate.x + i == snake.node->x && coordinate.y + j == snake.node->y`). -/
def coordinateInvalid (c : Coord) (hx hy : Int) : Bool :=
  collisionOffsets.any fun p => c.x + p.1 = hx ∧ c.y + p.2 = hy

/-- generateCoordinate of src/game.h: rejection sampling against the snake
head at (hx, hy), starting at draw pair k, with `fuel` bounding the number
of iterations of the unbounded C while loop. -/
def generateCoordinate (rnd : Nat → Nat) (hx hy : Int) : Nat → Nat → Option Coord
  | _, 0 => none
  | k, fuel + 1 =>
    let c := candidateCoord rnd k
    if coordinateInvalid c hx hy then generateCoordinate rnd hx hy (k + 1) fuel
    else some c

/-- generateFruit of src/game.h: store a fresh coordinate in
`gameBoard.fruitLoc` and raise the fruit flag there. -/
def generateFruit (rnd : Nat → Nat) (k fuel : Nat) (s : GameState) : Option GameState :=
  match generateCoordinate rnd s.snake.node.x s.snake.node.y k fuel with
  | none => none
  | some c =>
    some { s with board := { s.board with
        fruitLoc := c
        grid := updateCell s.board.grid c.x c.y
          (fun cell => { cell with containsFruit := true }) } }

/-- The node createSnakeNode builds for extendSnake: it sits at the former
tail's previous position, with previous coordinates equal to its current
ones. -/
def newTailNode (t : SnakeNode) : SnakeNode :=
  { x := t.prev_x, y := t.prev_y, prev_x := t.prev_x, prev_y := t.prev_y }

/-- The pointer walk of extendSnake: follow `nextNode` to the tail and hang
a new node behind it. -/
def extendSnakeTail (last : SnakeNode) : List SnakeNode → List SnakeNode
  | [] => [newTailNode last]
  | n :: rest => n :: extendSnakeTail n rest

/-- extendSnake of src/game.h (the InvalidateRect calls are render-only). -/
def extendSnake (s : GameState) : GameState :=
  { s with snake := { s.snake with tail := extendSnakeTail s.snake.node s.snake.tail } }

/-- eatFruit of src/game.h: drop the fruit flag at the recorded fruit
location, add the score increment, extend the snake, and generate the next
fruit. -/
def eatFruit (rnd : Nat → Nat) (k fuel : Nat) (s : GameState) : Option GameState :=
  let s1 := { s with board := { s.board with
      grid := updateCell s.board.grid s.board.fruitLoc.x s.board.fruitLoc.y
        (fun c => { c with containsFruit := false }) } }
  generateFruit rnd k fuel (extendSnake (incrementScore s1))

/-- generateNextFrame of src/game.h: move, classify, and either end the
game or eat the fruit. -/
def generateNextFrame (rnd : Nat → Nat) (k fuel : Nat) (s : GameState) : Option GameState :=
  let s1 := moveSnake s
  let collisionVal := collisionCheck s1
  if collisionVal = COLLISION then
    some { s1 with board := { s1.board with gameStatus := GAME_OVER } }
  else if collisionVal = EATS_FRUIT then eatFruit rnd k fuel s1
  else some s1

/-- togglePause of src/game.h (timer arming is render-only): PAUSE_GAME
goes to START_GAME, every other status goes to PAUSE_GAME. -/
def togglePause (s : GameState) : GameState :=
  if s.board.gameStatus = PAUSE_GAME then
    { s with board := { s.board with gameStatus := START_GAME } }
  else
    { s with board := { s.board with gameStatus := PAUSE_GAME } }

/-- initializeGame of src/game.h (status, score bookkeeping and the fresh
grid; timers and label text are render-only). -/
def initializeGame (s : GameState) : GameState :=
  { s with board := { s.board with
      gameStatus := PAUSE_GAME
      score := 0
      score_increment := 10
      grid := initGrid } }

/-- initializeSnake of src/game.h: a single head node at the start cell
with equal current and previous coordinates, the head flag raised there,
and the direction set to up. -/
def initializeSnake (s : GameState) : GameState :=
  { board := { s.board with
      grid := updateCell s.board.grid SNAKEHEADSTARTX SNAKEHEADSTARTY
        (fun c => { c with containsHead := true }) }
    snake := { node := { x := SNAKEHEADSTARTX, y := SNAKEHEADSTARTY,
                         prev_x := SNAKEHEADSTARTX, prev_y := SNAKEHEADSTARTY }
               tail := []
               movement_direction := DIRECTION_UP } }

/-- initializeFruit of src/game.h: same store-and-flag pair of statements
as generateFruit. -/
def initializeFruit (rnd : Nat → Nat) (k fuel : Nat) (s : GameState) : Option GameState :=
  match generateCoordinate rnd s.snake.node.x s.snake.node.y k fuel with
  | none => none
  | some c =>
    some { s with board := { s.board with
        fruitLoc := c
        grid := updateCell s.board.grid c.x c.y
          (fun cell => { cell with containsFruit := true }) } }

/-- gameSetup of src/game.h (initializeRand only seeds the stream, which
the embedding passes explicitly). -/
def gameSetup (rnd : Nat → Nat) (k fuel : Nat) (s : GameState) : Option GameState :=
  initializeFruit rnd k fuel (initializeSnake (initializeGame s))

/-- resetSnake of src/game.h: the trailing nodes are freed, the head node
is put back at the start cell with equal current and previous coordinates,
the head flag is raised there, and the direction is set to up.  (The C free
loop's memory behaviour is not part of the logical state.) -/
def resetSnake (s : GameState) : GameState :=
  { board := { s.board with
      grid := updateCell s.board.grid SNAKEHEADSTARTX SNAKEHEADSTARTY
        (fun c => { c with containsHead := true }) }
    snake := { node := { x := SNAKEHEADSTARTX, y := SNAKEHEADSTARTY,
                         prev_x := SNAKEHEADSTARTX, prev_y := SNAKEHEADSTARTY }
               tail := []
               movement_direction := DIRECTION_UP } }

/-- resetGame of src/game.h: zero the score, rebuild the grid, reset the
snake, drop the fruit flag at the recorded fruit location, and place a new
fruit. -/
def resetGame (rnd : Nat → Nat) (k fuel : Nat) (s : GameState) : Option GameState :=
  let s1 := { s with board := { s.board with score := 0 } }
  let s2 := resetSnake (resetGameGrid s1)
  let s3 := { s2 with board := { s2.board with
      grid := updateCell s2.board.grid s2.board.fruitLoc.x s2.board.fruitLoc.y
        (fun c => { c with containsFruit := false }) } }
  generateFruit rnd k fuel s3

/-- The ID_RESET_GAME branch of SnakeWindowProc (src/window.h): set the
status to PAUSE_GAME, then run resetGame. -/
def resetCommand (rnd : Nat → Nat) (k fuel : Nat) (s : GameState) : Option GameState :=
  resetGame rnd k fuel { s with board := { s.board with gameStatus := PAUSE_GAME } }

/-- The NORMAL_TICK_SPEED_TIMER_ID branch of SnakeWindowProc
(src/window.h): a frame is generated only while the status is START_GAME;
all other work in that branch is repainting. -/
def onNormalTick (rnd : Nat → Nat) (k fuel : Nat) (s : GameState) : Option GameState :=
  if s.board.gameStatus = START_GAME then generateNextFrame rnd k fuel s
  else some s

/-- The W/A/S/D key branches of SnakeWindowProc (src/window.h): the
direction changes only while the status is not PAUSE_GAME. -/
def onDirectionKey (d : Int) (s : GameState) : GameState :=
  if s.board.gameStatus ≠ PAUSE_GAME then changeSnakeDirection d s else s

/-!
Energy / boost state machine.

The boost fields (`snake.boost`, `snake.boost_depleted`,
`snake.boost_recharging`, `gameBoard.energy_level`) and the six functions
setBoost, disableBoost, setBoostDepleted, startBoostRecharge,
stopBoostRecharge and updateEnergyLevel are declared and called by
SnakeWindowProc in src/window.h, but the file defining them (and the struct
fields) is not under src/.  The leaf operations below are therefore
modelled from the spec (section 4.5); the event dispatch around them is
embedded from the SnakeWindowProc code that is in src/window.h.
-/

/-- The boost fields of the snake/game globals used by SnakeWindowProc. -/
structure EnergyState where
  boost : Bool
  boost_depleted : Bool
  boost_recharging : Bool
  energy_level : Int
deriving DecidableEq

/-- Modelled from the spec: setBoost is missing from src/; per section 4.5
a boost request enters the BOOSTING state, i.e. raises the boost flag. -/
def setBoost (e : EnergyState) : EnergyState :=
  { e with boost := true }

/-- Modelled from the spec: disableBoost is missing from src/; releasing
the boost input leaves the BOOSTING state, i.e. drops the boost flag. -/
def disableBoost (e : EnergyState) : EnergyState :=
  { e with boost := false }

/-- Modelled from the spec: setBoostDepleted is missing from src/; when
energy reaches 0 mid-boost the machine enters DEPLETED, i.e. raises the
depleted flag. -/
def setBoostDepleted (e : EnergyState) : EnergyState :=
  { e with boost_depleted := true }

/-- Modelled from the spec: startBoostRecharge is missing from src/; a
recharge trigger enters RECHARGING, i.e. raises the recharging flag. -/
def startBoostRecharge (e : EnergyState) : EnergyState :=
  { e with boost_recharging := true }

/-- Modelled from the spec: stopBoostRecharge is missing from src/;
re-requesting boost interrupts the recharge, i.e. drops the recharging
flag. -/
def stopBoostRecharge (e : EnergyState) : EnergyState :=
  { e with boost_recharging := false }

/-- Modelled from the spec: updateEnergyLevel is missing from src/; per
section 4.5 energy decreases monotonically while boosting (BOOSTING, i.e.
boost held and not depleted) and increases monotonically while recharging,
clamped to [0, 100]; the per-tick rate is unspecified and taken as one
unit. -/
def updateEnergyLevel (e : EnergyState) : EnergyState :=
  if e.boost && !e.boost_depleted then
    { e with energy_level := max 0 (e.energy_level - 1) }
  else if e.boost_recharging then
    { e with energy_level := min 100 (e.energy_level + 1) }
  else e

/-- The events of SnakeWindowProc that touch the boost state: the Shift
key down/up branches and the three timers.  `running` carries whether
`gameBoard.gameStatus == START_GAME` at the tick. -/
inductive EnergyEvent where
  | boostKeyDown
  | boostKeyUp
  | boostTick (running : Bool)
  | rechargeTick
  | normalTick
deriving DecidableEq

/-- The boost-related effect of each SnakeWindowProc branch, embedded from
src/window.h:
* WM_KEYDOWN VK_SHIFT: unless depleted, setBoost, and stop an ongoing
  recharge;
* WM_KEYUP VK_SHIFT: disableBoost, clear a depletion flag, and start a
  recharge if none is running;
* WM_TIMER GAME_TIMER_BOOST_ID: only while the boost flag holds; while the
  game runs, a tick with no energy left triggers setBoostDepleted and
  startBoostRecharge instead of a frame; updateEnergyLevel then runs either
  way (frame generation itself is the frame engine's business, not the
  energy machine's);
* WM_TIMER GAME_TIMER_BOOST_RECHARGE_ID: updateEnergyLevel while the
  recharging flag holds;
* WM_TIMER NORMAL_TICK_SPEED_TIMER_ID: no energy effect. -/
def energyStep (e : EnergyState) : EnergyEvent → EnergyState
  | .boostKeyDown =>
    if !e.boost_depleted then
      let e1 := setBoost e
      if e1.boost_recharging then stopBoostRecharge e1 else e1
    else e
  | .boostKeyUp =>
    let e1 := disableBoost e
    let e2 := if e1.boost_depleted then { e1 with boost_depleted := false } else e1
    if !e2.boost_recharging then startBoostRecharge e2 else e2
  | .boostTick running =>
    if e.boost then
      let e1 :=
        if running then
          if e.energy_level > 0 then e
          else startBoostRecharge (setBoostDepleted e)
        else e
      updateEnergyLevel e1
    else e
  | .rechargeTick =>
    if e.boost_recharging then updateEnergyLevel e else e
  | .normalTick => e

/-- A whole sequence of boost events. -/
def energyRun (e : EnergyState) (evs : List EnergyEvent) : EnergyState :=
  evs.foldl energyStep e

/-- The (x, y) pair of a snake node's current position. -/
def nodePos (n : SnakeNode) : Int × Int :=
  (n.x, n.y)

/-- The current positions of the trailing body segments, head excluded
(the cells the code flags `containsSnake`). -/
def bodyCoords (s : GameState) : List (Int × Int) :=
  s.snake.tail.map nodePos

/-- The node the `while (ptr->nextNode != NULL)` walk of extendSnake
reaches: the last node of the head-started chain. -/
def lastSnakeNode (n : SnakeNode) (l : List SnakeNode) : SnakeNode :=
  (n :: l).getLast (List.cons_ne_nil n l)

/-!  Basic facts about single-cell updates. -/

theorem updateCell_eval (g : Grid) (x y : Int) (f : GridCell → GridCell) (a b : Int) :
    updateCell g x y f a b = if a = x ∧ b = y then f (g a b) else g a b :=
  rfl

@[simp]
theorem updateCell_head_containsSnake (g : Grid) (x y : Int) (v : Bool) (a b : Int) :
    (updateCell g x y (fun c => { c with containsHead := v }) a b).containsSnake
      = (g a b).containsSnake := by
  unfold updateCell
  split <;> rfl

@[simp]
theorem updateCell_head_containsWall (g : Grid) (x y : Int) (v : Bool) (a b : Int) :
    (updateCell g x y (fun c => { c with containsHead := v }) a b).containsWall
      = (g a b).containsWall := by
  unfold updateCell
  split <;> rfl

@[simp]
theorem updateCell_head_containsFruit (g : Grid) (x y : Int) (v : Bool) (a b : Int) :
    (updateCell g x y (fun c => { c with containsHead := v }) a b).containsFruit
      = (g a b).containsFruit := by
  unfold updateCell
  split <;> rfl

@[simp]
theorem updateCell_snake_containsHead (g : Grid) (x y : Int) (v : Bool) (a b : Int) :
    (updateCell g x y (fun c => { c with containsSnake := v }) a b).containsHead
      = (g a b).containsHead := by
  unfold updateCell
  split <;> rfl

@[simp]
theorem updateCell_snake_containsWall (g : Grid) (x y : Int) (v : Bool) (a b : Int) :
    (updateCell g x y (fun c => { c with containsSnake := v }) a b).containsWall
      = (g a b).containsWall := by
  unfold updateCell
  split <;> rfl

@[simp]
theorem updateCell_snake_containsFruit (g : Grid) (x y : Int) (v : Bool) (a b : Int) :
    (updateCell g x y (fun c => { c with containsSnake := v }) a b).containsFruit
      = (g a b).containsFruit := by
  unfold updateCell
  split <;> rfl

@[simp]
theorem updateCell_fruit_containsHead (g : Grid) (x y : Int) (v : Bool) (a b : Int) :
    (updateCell g x y (fun c => { c with containsFruit := v }) a b).containsHead
      = (g a b).containsHead := by
  unfold updateCell
  split <;> rfl

@[simp]
theorem updateCell_fruit_containsSnake (g : Grid) (x y : Int) (v : Bool) (a b : Int) :
    (updateCell g x y (fun c => { c with containsFruit := v }) a b).containsSnake
      = (g a b).containsSnake := by
  unfold updateCell
  split <;> rfl

@[simp]
theorem updateCell_fruit_containsWall (g : Grid) (x y : Int) (v : Bool) (a b : Int) :
    (updateCell g x y (fun c => { c with containsFruit := v }) a b).containsWall
      = (g a b).containsWall := by
  unfold updateCell
  split <;> rfl

/-!  The extendSnake walk appends exactly one node behind the tail. -/

theorem lastSnakeNode_cons (a n : SnakeNode) (rest : List SnakeNode) :
    lastSnakeNode a (n :: rest) = lastSnakeNode n rest := by
  simp [lastSnakeNode, List.getLast_cons]

theorem extendSnakeTail_eq (last : SnakeNode) (l : List SnakeNode) :
    extendSnakeTail last l = l ++ [newTailNode (lastSnakeNode last l)] := by
  induction l generalizing last with
  | nil => simp [extendSnakeTail, lastSnakeNode]
  | cons n rest ih => simp [extendSnakeTail, lastSnakeNode_cons, ih n]

/-- C10: extendSnake appends exactly one node, placed at the former tail's
previous coordinates (with its own previous coordinates equal to them), and
changes nothing else of the game state: the head node, the other segments,
the movement direction, the score and every grid-cell flag are untouched,
so in particular the new tail's cell is not flagged containsSnake. -/
theorem extendSnake_appends_one_node (s : GameState) :
    extendSnake s =
      { s with snake := { s.snake with
          tail := s.snake.tail ++ [newTailNode (lastSnakeNode s.snake.node s.snake.tail)] } } := by
  simp [extendSnake, extendSnakeTail_eq]

/-- C9: after changeSnakeDirection with a value that is none of the four
direction constants, moveSnake leaves the head's coordinates unchanged. -/
theorem moveSnake_invalid_direction_fixes_head (s : GameState) (d : Int)
    (h0 : d ≠ DIRECTION_UP) (h1 : d ≠ DIRECTION_DOWN)
    (h2 : d ≠ DIRECTION_LEFT) (h3 : d ≠ DIRECTION_RIGHT) :
    (moveSnake (changeSnakeDirection d s)).snake.node.x = s.snake.node.x ∧
    (moveSnake (changeSnakeDirection d s)).snake.node.y = s.snake.node.y := by
  simp [moveSnake, movedHead, changeSnakeDirection, h0, h1, h2, h3]

/-- An all-empty grid for concrete witness states. -/
def blankGrid : Grid :=
  fun _ _ => outOfBoundsCell

/-- A concrete running state: lone head at the grid centre, heading up. -/
def plainState : GameState :=
  { board := { grid := blankGrid, score := 0, score_increment := 10,
               gameStatus := START_GAME, fruitLoc := { x := 3, y := 3 } },
    snake := { node := { x := 30, y := 30, prev_x := 30, prev_y := 30 },
               tail := [], movement_direction := DIRECTION_UP } }

theorem moveSnake_invalid_direction_fixes_head_witness :
    (moveSnake (changeSnakeDirection 5 plainState)).snake.node.x = plainState.snake.node.x ∧
    (moveSnake (changeSnakeDirection 5 plainState)).snake.node.y = plainState.snake.node.y :=
  moveSnake_invalid_direction_fixes_head plainState 5 (by decide) (by decide) (by decide) (by decide)

/-!  Soundness of the fruit-coordinate rejection sampler. -/

theorem coordinateInvalid_eq_false_iff (c : Coord) (hx hy : Int) :
    coordinateInvalid c hx hy = false ↔
      ∀ p ∈ collisionOffsets, ¬(c.x + p.1 = hx ∧ c.y + p.2 = hy) := by
  simp [coordinateInvalid]

theorem generateCoordinate_sound (rnd : Nat → Nat) (hx hy : Int) (k fuel : Nat)
    (c : Coord) (h : generateCoordinate rnd hx hy k fuel = some c) :
    (FRUIT_MARGIN ≤ c.x ∧ c.x < GAMEGRIDCOLS - FRUIT_MARGIN) ∧
    (FRUIT_MARGIN ≤ c.y ∧ c.y < GAMEGRIDROWS - FRUIT_MARGIN) ∧
    ¬((c.x - hx).natAbs ≤ 1 ∧ (c.y - hy).natAbs ≤ 1) := by
  induction fuel generalizing k with
  | zero => simp [generateCoordinate] at h
  | succ n ih =>
    rw [generateCoordinate] at h
    by_cases hv : coordinateInvalid (candidateCoord rnd k) hx hy = true
    · rw [if_pos hv] at h
      exact ih (k + 1) h
    · rw [if_neg hv] at h
      obtain rfl : candidateCoord rnd k = c := Option.some.inj h
      have hxlo : (0 : Int) ≤ (rnd (2 * k) : Int) % (GAMEGRIDCOLS - 2 * FRUIT_MARGIN) :=
        Int.emod_nonneg _ (by decide)
      have hxhi : (rnd (2 * k) : Int) % (GAMEGRIDCOLS - 2 * FRUIT_MARGIN)
          < GAMEGRIDCOLS - 2 * FRUIT_MARGIN :=
        Int.emod_lt_of_pos _ (by decide)
      have hylo : (0 : Int) ≤ (rnd (2 * k + 1) : Int) % (GAMEGRIDROWS - 2 * FRUIT_MARGIN) :=
        Int.emod_nonneg _ (by decide)
      have hyhi : (rnd (2 * k + 1) : Int) % (GAMEGRIDROWS - 2 * FRUIT_MARGIN)
          < GAMEGRIDROWS - 2 * FRUIT_MARGIN :=
        Int.emod_lt_of_pos _ (by decide)
      have hexcl := (coordinateInvalid_eq_false_iff (candidateCoord rnd k) hx hy).mp
        (Bool.not_eq_true _ ▸ hv)
      refine ⟨?_, ?_, ?_⟩
      · constructor <;>
          · simp only [candidateCoord, GAMEGRIDCOLS, FRUIT_MARGIN] at hxlo hxhi ⊢
            omega
      · constructor <;>
          · simp only [candidateCoord, GAMEGRIDROWS, FRUIT_MARGIN] at hylo hyhi ⊢
            omega
      · rintro ⟨ha, hb⟩
        set cx := (candidateCoord rnd k).x with hcx
        set cy := (candidateCoord rnd k).y with hcy
        have hi : hx - cx = -1 ∨ hx - cx = 0 ∨ hx - cx = 1 := by omega
        have hj : hy - cy = -1 ∨ hy - cy = 0 ∨ hy - cy = 1 := by omega
        have hmem : (hx - cx, hy - cy) ∈ collisionOffsets := by
          rcases hi with hi | hi | hi <;> rcases hj with hj | hj | hj <;>
            simp [collisionOffsets, hi, hj]
        exact hexcl (hx - cx, hy - cy) hmem ⟨by omega, by omega⟩

/-- C4: every coordinate generateCoordinate returns has both components in
the margin-bounded interior [FRUIT_MARGIN, gridsize - FRUIT_MARGIN) and is
not within the 3 x 3 exclusion window centred at the snake head; in
particular it differs from the head's own cell. -/
theorem generateCoordinate_valid (rnd : Nat → Nat) (hx hy : Int) (k fuel : Nat)
    (c : Coord) (h : generateCoordinate rnd hx hy k fuel = some c) :
    (FRUIT_MARGIN ≤ c.x ∧ c.x < GAMEGRIDCOLS - FRUIT_MARGIN) ∧
    (FRUIT_MARGIN ≤ c.y ∧ c.y < GAMEGRIDROWS - FRUIT_MARGIN) ∧
    ¬((c.x - hx).natAbs ≤ 1 ∧ (c.y - hy).natAbs ≤ 1) ∧
    ¬(c.x = hx ∧ c.y = hy) := by
  obtain ⟨hb1, hb2, hb3⟩ := generateCoordinate_sound rnd hx hy k fuel c h
  refine ⟨hb1, hb2, hb3, ?_⟩
  rintro ⟨rfl, rfl⟩
  exact hb3 ⟨by omega, by omega⟩

/-- The all-zero draw stream, for concrete witnesses. -/
def rndZero : Nat → Nat :=
  fun _ => 0

theorem generateCoordinate_valid_witness :
    (FRUIT_MARGIN ≤ (Coord.mk 3 3).x ∧ (Coord.mk 3 3).x < GAMEGRIDCOLS - FRUIT_MARGIN) ∧
    (FRUIT_MARGIN ≤ (Coord.mk 3 3).y ∧ (Coord.mk 3 3).y < GAMEGRIDROWS - FRUIT_MARGIN) ∧
    ¬(((Coord.mk 3 3).x - 30).natAbs ≤ 1 ∧ ((Coord.mk 3 3).y - 30).natAbs ≤ 1) ∧
    ¬((Coord.mk 3 3).x = 30 ∧ (Coord.mk 3 3).y = 30) :=
  generateCoordinate_valid rndZero 30 30 0 1 (Coord.mk 3 3) (by decide)

/-!  Collision classification. -/

/-- A grid whose only flag is a wall at (30, 29). -/
def wallAheadGrid : Grid := fun i j =>
  { containsHead := false, containsSnake := false,
    containsWall := decide (i = 30 ∧ j = 29), containsFruit := false }

/-- A state about to step onto a wall cell: lone head at (30, 30) heading
up, a wall at (30, 29) and nothing else anywhere. -/
def wallAheadState : GameState :=
  { board := { grid := wallAheadGrid, score := 0, score_increment := 10,
               gameStatus := START_GAME, fruitLoc := { x := 3, y := 3 } },
    snake := { node := { x := 30, y := 30, prev_x := 30, prev_y := 30 },
               tail := [], movement_direction := DIRECTION_UP } }

/-- C2 counterexample: after the move the head's cell contains a wall, yet
collisionCheck does not classify the tick as COLLISION (the wall test fires
only at offsets with both components nonzero), the frame completes, and the
status stays START_GAME rather than becoming GAME_OVER. -/
theorem collision_wall_in_head_cell_cex :
    ((moveSnake wallAheadState).board.grid (moveSnake wallAheadState).snake.node.x
        (moveSnake wallAheadState).snake.node.y).containsWall = true ∧
    collisionCheck (moveSnake wallAheadState) = NO_COLLISION ∧
    NO_COLLISION ≠ COLLISION ∧
    (generateNextFrame rndZero 0 1 wallAheadState).map (fun t => t.board.gameStatus)
      = some START_GAME ∧
    START_GAME ≠ GAME_OVER := by
  decide

/-- C2 (amended): if after the move the head's cell carries the snake-body
flag, the frame step classifies the tick as COLLISION, sets the status to
GAME_OVER, and mutates nothing else (no score change, no extension, no
fruit relocation); a wall in the head's own cell, by contrast, does not by
itself produce COLLISION (walls end the game only through the
diagonal-offset test of the 3 x 3 scan). -/
theorem collision_on_body_segment (s : GameState) (rnd : Nat → Nat) (k fuel : Nat)
    (h : ((moveSnake s).board.grid (moveSnake s).snake.node.x
        (moveSnake s).snake.node.y).containsSnake = true) :
    collisionCheck (moveSnake s) = COLLISION ∧
    generateNextFrame rnd k fuel s =
      some { moveSnake s with board :=
        { (moveSnake s).board with gameStatus := GAME_OVER } } := by
  have hc : collisionCheck (moveSnake s) = COLLISION := by
    rw [collisionCheck, if_pos h]
  refine ⟨hc, ?_⟩
  rw [generateNextFrame]
  simp [hc]

/-- A grid whose only flag is a snake-body flag at (30, 29). -/
def bodyAheadGrid : Grid := fun i j =>
  { containsHead := false, containsSnake := decide (i = 30 ∧ j = 29),
    containsWall := false, containsFruit := false }

/-- A state about to step onto a body-flagged cell: lone head at (30, 30)
heading up, the snake flag raised at (30, 29). -/
def bodyAheadState : GameState :=
  { board := { grid := bodyAheadGrid, score := 0, score_increment := 10,
               gameStatus := START_GAME, fruitLoc := { x := 3, y := 3 } },
    snake := { node := { x := 30, y := 30, prev_x := 30, prev_y := 30 },
               tail := [], movement_direction := DIRECTION_UP } }

theorem collision_on_body_segment_witness :
    collisionCheck (moveSnake bodyAheadState) = COLLISION ∧
    generateNextFrame rndZero 0 1 bodyAheadState =
      some { moveSnake bodyAheadState with board :=
        { (moveSnake bodyAheadState).board with gameStatus := GAME_OVER } } :=
  collision_on_body_segment bodyAheadState rndZero 0 1 (by decide)

/-!  Game-over handling. -/

/-- A concrete finished game: status GAME_OVER, lone head at (10, 10). -/
def gameOverState : GameState :=
  { board := { grid := blankGrid, score := 40, score_increment := 10,
               gameStatus := GAME_OVER, fruitLoc := { x := 3, y := 3 } },
    snake := { node := { x := 10, y := 10, prev_x := 10, prev_y := 10 },
               tail := [], movement_direction := DIRECTION_UP } }

/-- C5 counterexample: the pause toggle does move the game out of
GAME_OVER — togglePause on a GAME_OVER state takes the else branch and sets
the status to PAUSE_GAME without any reset. -/
theorem togglePause_leaves_game_over_cex :
    (togglePause gameOverState).board.gameStatus = PAUSE_GAME ∧
    PAUSE_GAME ≠ GAME_OVER ∧
    (togglePause gameOverState).board.score = gameOverState.board.score := by
  decide

/-- C5 (amended): while the status is GAME_OVER, a timer tick leaves the
whole state unchanged and a direction key never changes the status; the
reset command transitions to PAUSE_GAME with score and snake reinitialized;
but the pause toggle also leaves GAME_OVER, setting the status to
PAUSE_GAME without reinitializing anything. -/
theorem game_over_transitions :
    (∀ (s : GameState) (rnd : Nat → Nat) (k fuel : Nat),
       s.board.gameStatus = GAME_OVER → onNormalTick rnd k fuel s = some s) ∧
    (∀ s : GameState, s.board.gameStatus = GAME_OVER →
       (togglePause s).board.gameStatus = PAUSE_GAME ∧
       (togglePause s).board.score = s.board.score ∧
       (togglePause s).snake = s.snake) ∧
    (∀ (s : GameState) (d : Int),
       (onDirectionKey d s).board.gameStatus = s.board.gameStatus) ∧
    (∀ (s : GameState) (rnd : Nat → Nat) (k fuel : Nat) (t : GameState),
       resetCommand rnd k fuel s = some t →
       t.board.gameStatus = PAUSE_GAME ∧ t.board.score = 0 ∧
       t.snake.node = { x := SNAKEHEADSTARTX, y := SNAKEHEADSTARTY,
                        prev_x := SNAKEHEADSTARTX, prev_y := SNAKEHEADSTARTY } ∧
       t.snake.tail = [] ∧ t.snake.movement_direction = DIRECTION_UP) := by
  refine ⟨?_, ?_, ?_, ?_⟩
  · intro s rnd k fuel h
    rw [onNormalTick, if_neg]
    rw [h]
    decide
  · intro s h
    have : ¬s.board.gameStatus = PAUSE_GAME := by rw [h]; decide
    simp [togglePause, this]
  · intro s d
    rw [onDirectionKey]
    split <;> simp [changeSnakeDirection]
  · intro s rnd k fuel t h
    rw [resetCommand] at h
    simp only [resetGame, resetGameGrid, resetSnake, generateFruit] at h
    cases hgc : generateCoordinate rnd SNAKEHEADSTARTX SNAKEHEADSTARTY k fuel with
    | none => rw [hgc] at h; simp at h
    | some c =>
      rw [hgc] at h
      simp only [Option.some.injEq] at h
      subst h
      simp

/-- The state the reset command produces from the concrete finished game,
with the all-zero draw stream. -/
def resetResultState : GameState :=
  (resetCommand rndZero 0 1 gameOverState).getD gameOverState

theorem game_over_transitions_witness :
    onNormalTick rndZero 0 1 gameOverState = some gameOverState ∧
    (togglePause gameOverState).board.gameStatus = PAUSE_GAME ∧
    (onDirectionKey DIRECTION_LEFT gameOverState).board.gameStatus
      = gameOverState.board.gameStatus ∧
    resetResultState.board.gameStatus = PAUSE_GAME ∧
    resetResultState.board.score = 0 :=
  ⟨game_over_transitions.1 gameOverState rndZero 0 1 (by decide),
   (game_over_transitions.2.1 gameOverState (by decide)).1,
   game_over_transitions.2.2.1 gameOverState DIRECTION_LEFT,
   (game_over_transitions.2.2.2 gameOverState rndZero 0 1 resetResultState rfl).1,
   (game_over_transitions.2.2.2 gameOverState rndZero 0 1 resetResultState rfl).2.1⟩

/-!  Energy and boost. -/

theorem energyStep_bounds (e : EnergyState) (ev : EnergyEvent)
    (h0 : 0 ≤ e.energy_level) (h1 : e.energy_level ≤ 100) :
    0 ≤ (energyStep e ev).energy_level ∧ (energyStep e ev).energy_level ≤ 100 := by
  cases ev <;>
    simp only [energyStep, setBoost, disableBoost, setBoostDepleted,
      startBoostRecharge, stopBoostRecharge, updateEnergyLevel] <;>
    (try split_ifs) <;> (try simp) <;> omega

theorem energyRun_bounds (evs : List EnergyEvent) :
    ∀ e : EnergyState, 0 ≤ e.energy_level → e.energy_level ≤ 100 →
      0 ≤ (energyRun e evs).energy_level ∧ (energyRun e evs).energy_level ≤ 100 := by
  induction evs with
  | nil => intro e h0 h1; exact ⟨h0, h1⟩
  | cons ev evs ih =>
    intro e h0 h1
    have hstep := energyStep_bounds e ev h0 h1
    simpa [energyRun, List.foldl] using ih (energyStep e ev) hstep.1 hstep.2

/-- C8: under every sequence of boost and tick events the energy level
stays in [0, 100]; a boost tick taken while boosting (boost held, not
depleted) with energy remaining lowers the energy by exactly the tick rate;
a recharge tick taken while recharging (and not actively boosting) never
lowers it; and a running boost tick that finds the energy at 0 sets the
depleted flag instead of driving the energy negative. -/
theorem energy_clamped_and_monotone (e : EnergyState) (evs : List EnergyEvent)
    (h0 : 0 ≤ e.energy_level) (h1 : e.energy_level ≤ 100) :
    (0 ≤ (energyRun e evs).energy_level ∧ (energyRun e evs).energy_level ≤ 100) ∧
    (∀ (f : EnergyState) (r : Bool), f.boost = true → f.boost_depleted = false →
       0 < f.energy_level →
       (energyStep f (EnergyEvent.boostTick r)).energy_level = f.energy_level - 1) ∧
    (∀ f : EnergyState, f.boost_recharging = true →
       (f.boost = true → f.boost_depleted = true) → f.energy_level ≤ 100 →
       f.energy_level ≤ (energyStep f EnergyEvent.rechargeTick).energy_level) ∧
    (∀ f : EnergyState, f.boost = true → f.boost_depleted = false →
       f.energy_level = 0 →
       (energyStep f (EnergyEvent.boostTick true)).boost_depleted = true ∧
       0 ≤ (energyStep f (EnergyEvent.boostTick true)).energy_level) := by
  refine ⟨energyRun_bounds evs e h0 h1, ?_, ?_, ?_⟩
  · intro f r hb hd he
    cases r <;>
      simp [energyStep, updateEnergyLevel, setBoostDepleted, startBoostRecharge,
        hb, hd, he] <;>
      omega
  · intro f hr hbd hle
    by_cases hb : f.boost = true
    · have hd := hbd hb
      simp [energyStep, updateEnergyLevel, hr, hb, hd]
      omega
    · simp only [Bool.not_eq_true] at hb
      simp [energyStep, updateEnergyLevel, hr, hb]
      omega
  · intro f hb hd he
    simp [energyStep, updateEnergyLevel, setBoostDepleted, startBoostRecharge,
      hb, hd, he]

/-- A full fresh energy gauge, not boosting. -/
def energyFull : EnergyState :=
  { boost := false, boost_depleted := false, boost_recharging := false,
    energy_level := 100 }

theorem energy_clamped_and_monotone_witness :
    (0 ≤ (energyRun energyFull
        [EnergyEvent.boostKeyDown, EnergyEvent.boostTick true]).energy_level ∧
      (energyRun energyFull
        [EnergyEvent.boostKeyDown, EnergyEvent.boostTick true]).energy_level ≤ 100) ∧
    (∀ (f : EnergyState) (r : Bool), f.boost = true → f.boost_depleted = false →
       0 < f.energy_level →
       (energyStep f (EnergyEvent.boostTick r)).energy_level = f.energy_level - 1) ∧
    (∀ f : EnergyState, f.boost_recharging = true →
       (f.boost = true → f.boost_depleted = true) → f.energy_level ≤ 100 →
       f.energy_level ≤ (energyStep f EnergyEvent.rechargeTick).energy_level) ∧
    (∀ f : EnergyState, f.boost = true → f.boost_depleted = false →
       f.energy_level = 0 →
       (energyStep f (EnergyEvent.boostTick true)).boost_depleted = true ∧
       0 ≤ (energyStep f (EnergyEvent.boostTick true)).energy_level) :=
  energy_clamped_and_monotone energyFull
    [EnergyEvent.boostKeyDown, EnergyEvent.boostTick true] (by decide) (by decide)

/-!  The moveSnake shift: positions and grid flags. -/

theorem movedHead_prev_x (n : SnakeNode) (d : Int) : (movedHead n d).prev_x = n.x := by
  unfold movedHead
  split_ifs <;> rfl

theorem movedHead_prev_y (n : SnakeNode) (d : Int) : (movedHead n d).prev_y = n.y := by
  unfold movedHead
  split_ifs <;> rfl

theorem moveSnakeBody_fst_map (body : List SnakeNode) :
    ∀ (g : Grid) (pred : SnakeNode),
      (moveSnakeBody g pred body).1.map nodePos
        = (((pred.prev_x, pred.prev_y) : Int × Int) :: body.map nodePos).dropLast := by
  induction body with
  | nil => intro g pred; simp [moveSnakeBody, List.dropLast]
  | cons n rest ih =>
    intro g pred
    simp only [moveSnakeBody, List.map_cons]
    rw [ih]
    cases rest with
    | nil => simp [nodePos, List.dropLast]
    | cons r rs => simp [nodePos, List.dropLast_cons₂]

theorem moveSnakeBody_containsHead (body : List SnakeNode) :
    ∀ (g : Grid) (pred : SnakeNode) (a b : Int),
      ((moveSnakeBody g pred body).2 a b).containsHead = (g a b).containsHead := by
  induction body with
  | nil => intro g pred a b; rfl
  | cons n rest ih =>
    intro g pred a b
    simp only [moveSnakeBody]
    rw [ih]
    simp

theorem moveSnakeBody_containsSnake (body : List SnakeNode) :
    ∀ (g : Grid) (pred : SnakeNode),
      (((pred.prev_x, pred.prev_y) : Int × Int) :: body.map nodePos).Nodup →
      ∀ pa pb : Int,
        ((moveSnakeBody g pred body).2 pa pb).containsSnake = true ↔
          ((pa, pb) ∈ (((pred.prev_x, pred.prev_y) : Int × Int) :: body.map nodePos).dropLast ∨
            ((pa, pb) ∉ body.map nodePos ∧ (g pa pb).containsSnake = true)) := by
  induction body with
  | nil =>
    intro g pred hnd pa pb
    simp [moveSnakeBody, List.dropLast]
  | cons n rest ih =>
    intro g pred hnd pa pb
    have hpp : ((pred.prev_x, pred.prev_y) : Int × Int) ∉ nodePos n :: rest.map nodePos := by
      simpa using (List.nodup_cons.mp hnd).1
    have hnd1 : ((n.x, n.y) :: rest.map nodePos).Nodup := by
      have h := (List.nodup_cons.mp hnd).2
      simpa [nodePos] using h
    have hnp : ((n.x, n.y) : Int × Int) ∉ rest.map nodePos := (List.nodup_cons.mp hnd1).1
    have hppx : ¬(pred.prev_x = n.x ∧ pred.prev_y = n.y) := by
      intro hc
      exact hpp (by simp [nodePos, Prod.ext_iff, hc.1, hc.2])
    have hppr : ((pred.prev_x, pred.prev_y) : Int × Int) ∉ rest.map nodePos := by
      intro hm
      exact hpp (List.mem_cons_of_mem _ hm)
    simp only [moveSnakeBody, List.map_cons]
    rw [ih]
    case a =>
      exact hnd1
    by_cases h1 : pa = pred.prev_x ∧ pb = pred.prev_y
    · obtain ⟨rfl, rfl⟩ : pa = pred.prev_x ∧ pb = pred.prev_y := h1
      refine iff_of_true (Or.inr ⟨?_, ?_⟩) ?_
      · exact hppr
      · simp [updateCell]
      · refine Or.inl ?_
        rw [List.dropLast_cons₂]
        exact List.mem_cons_self _ _
    · by_cases h2 : pa = n.x ∧ pb = n.y
      · obtain ⟨rfl, rfl⟩ : pa = n.x ∧ pb = n.y := h2
        have hg2 : ((updateCell
            (updateCell g n.x n.y (fun c => { c with containsSnake := false }))
            pred.prev_x pred.prev_y
            (fun c => { c with containsSnake := true })) n.x n.y).containsSnake = false := by
          rw [updateCell_eval, if_neg, updateCell_eval, if_pos ⟨rfl, rfl⟩]
          intro hc
          exact h1 hc
        cases rest with
        | nil =>
          refine iff_of_false ?_ ?_
          · rw [hg2]
            simp [List.dropLast]
          · simp [List.dropLast, nodePos, Prod.ext_iff, h1]
        | cons r rs =>
          refine iff_of_true (Or.inl ?_) (Or.inl ?_)
          · simp [nodePos, List.dropLast_cons₂]
          · simp [nodePos, List.dropLast_cons₂]
      · have hg2 : ((updateCell
            (updateCell g n.x n.y (fun c => { c with containsSnake := false }))
            pred.prev_x pred.prev_y
            (fun c => { c with containsSnake := true })) pa pb).containsSnake
              = (g pa pb).containsSnake := by
          rw [updateCell_eval, if_neg h1, updateCell_eval, if_neg h2]
        rw [hg2]
        simp only [nodePos, List.dropLast_cons₂, List.mem_cons, Prod.mk.injEq]
        constructor
        · rintro (hm | ⟨hm, hgs⟩)
          · exact Or.inl (Or.inr hm)
          · exact Or.inr ⟨fun hc => hc.elim (fun hc2 => h2 hc2) hm, hgs⟩
        · rintro ((hm | hm) | ⟨hm, hgs⟩)
          · exact absurd hm h1
          · exact Or.inl hm
          · exact Or.inr ⟨fun hc => hm (Or.inr hc), hgs⟩

/-- C1: for a valid movement direction, one moveSnake call changes the
head's coordinate by exactly one along exactly one axis, gives every
trailing segment the position its predecessor held before the tick, and —
provided the segments were pairwise distinct cells and the grid's snake
flags matched the segment cells — leaves the snake-flagged grid cells
exactly the coordinate set of the new trailing segments. -/
theorem moveSnake_valid_direction_spec (s : GameState)
    (hdir : s.snake.movement_direction = DIRECTION_UP ∨
      s.snake.movement_direction = DIRECTION_DOWN ∨
      s.snake.movement_direction = DIRECTION_LEFT ∨
      s.snake.movement_direction = DIRECTION_RIGHT)
    (hnd : (((s.snake.node.x, s.snake.node.y) : Int × Int) :: bodyCoords s).Nodup)
    (hcons : ∀ pa pb : Int,
      (s.board.grid pa pb).containsSnake = true ↔ (pa, pb) ∈ bodyCoords s) :
    (((moveSnake s).snake.node.x - s.snake.node.x).natAbs
        + ((moveSnake s).snake.node.y - s.snake.node.y).natAbs = 1) ∧
    bodyCoords (moveSnake s)
      = (((s.snake.node.x, s.snake.node.y) : Int × Int) :: bodyCoords s).dropLast ∧
    (∀ pa pb : Int, ((moveSnake s).board.grid pa pb).containsSnake = true ↔
        (pa, pb) ∈ bodyCoords (moveSnake s)) := by
  have hB : bodyCoords (moveSnake s)
      = (((s.snake.node.x, s.snake.node.y) : Int × Int) :: bodyCoords s).dropLast := by
    simp only [bodyCoords, moveSnake]
    rw [moveSnakeBody_fst_map, movedHead_prev_x, movedHead_prev_y]
  refine ⟨?_, hB, ?_⟩
  · rcases hdir with h | h | h | h <;>
      simp [moveSnake, movedHead, h, DIRECTION_UP, DIRECTION_DOWN,
        DIRECTION_LEFT, DIRECTION_RIGHT]
  · intro pa pb
    rw [hB]
    simp only [moveSnake]
    rw [moveSnakeBody_containsSnake]
    case a =>
      rw [movedHead_prev_x, movedHead_prev_y]
      simpa [bodyCoords] using hnd
    rw [movedHead_prev_x, movedHead_prev_y]
    simp only [updateCell_head_containsSnake]
    rw [hcons pa pb]
    simp only [bodyCoords]
    constructor
    · rintro (hm | ⟨hm1, hm2⟩)
      · exact hm
      · exact absurd hm2 hm1
    · intro hm
      exact Or.inl hm

theorem moveSnake_valid_direction_spec_witness :
    (((moveSnake plainState).snake.node.x - plainState.snake.node.x).natAbs
        + ((moveSnake plainState).snake.node.y - plainState.snake.node.y).natAbs = 1) ∧
    bodyCoords (moveSnake plainState)
      = (((plainState.snake.node.x, plainState.snake.node.y) : Int × Int)
          :: bodyCoords plainState).dropLast ∧
    (∀ pa pb : Int,
      ((moveSnake plainState).board.grid pa pb).containsSnake = true ↔
        (pa, pb) ∈ bodyCoords (moveSnake plainState)) :=
  moveSnake_valid_direction_spec plainState (by decide) (by decide)
    (by intro pa pb; simp [plainState, blankGrid, outOfBoundsCell, bodyCoords])

/-!  The fruit-eating path. -/

theorem collisionScan_eats_fruit (g : Grid) (hx hy : Int) (l : List (Int × Int))
    (h : collisionScan g hx hy l = EATS_FRUIT) :
    ∃ p ∈ l, (g (hx + p.1) (hy + p.2)).containsFruit = true := by
  induction l with
  | nil => simp [collisionScan, NO_COLLISION, EATS_FRUIT] at h
  | cons q rest ih =>
    obtain ⟨i, j⟩ := q
    rw [collisionScan] at h
    by_cases hw : (g (hx + i) (hy + j)).containsWall = true
    · rw [if_pos hw] at h
      by_cases hd : i ≠ 0 ∧ j ≠ 0
      · rw [if_pos hd] at h
        exact absurd h (by decide)
      · rw [if_neg hd] at h
        obtain ⟨p, hp, hf⟩ := ih h
        exact ⟨p, List.mem_cons_of_mem _ hp, hf⟩
    · rw [if_neg hw] at h
      by_cases hf : (g (hx + i) (hy + j)).containsFruit = true
      · exact ⟨(i, j), List.mem_cons_self _ _, hf⟩
      · rw [if_neg hf] at h
        obtain ⟨p, hp, hfr⟩ := ih h
        exact ⟨p, List.mem_cons_of_mem _ hp, hfr⟩

theorem collisionCheck_eats_fruit (s : GameState)
    (h : collisionCheck s = EATS_FRUIT) :
    ∃ p ∈ collisionOffsets,
      (s.board.grid (s.snake.node.x + p.1) (s.snake.node.y + p.2)).containsFruit = true := by
  rw [collisionCheck] at h
  by_cases hs : (s.board.grid s.snake.node.x s.snake.node.y).containsSnake = true
  · rw [if_pos hs] at h
    exact absurd h (by decide)
  · rw [if_neg hs] at h
    exact collisionScan_eats_fruit _ _ _ _ h

theorem collisionOffsets_small (p : Int × Int) (h : p ∈ collisionOffsets) :
    p.1.natAbs ≤ 1 ∧ p.2.natAbs ≤ 1 := by
  fin_cases h <;> decide

theorem extendSnakeTail_length (last : SnakeNode) (l : List SnakeNode) :
    (extendSnakeTail last l).length = l.length + 1 := by
  rw [extendSnakeTail_eq]
  simp

/-- C3: on an EATS_FRUIT tick (with the fruit flags consistent with the
recorded fruit location around the head), eatFruit adds exactly one
segment, adds exactly score_increment to the score, leaves the old fruit
cell's flag cleared, and places the fruit at a coordinate that, at
placement time, is outside the 3 x 3 exclusion window around the head. -/
theorem eatFruit_spec (s : GameState) (rnd : Nat → Nat) (k fuel : Nat) (t : GameState)
    (hclass : collisionCheck s = EATS_FRUIT)
    (hfl : ∀ p ∈ collisionOffsets,
      (s.board.grid (s.snake.node.x + p.1) (s.snake.node.y + p.2)).containsFruit = true →
      s.snake.node.x + p.1 = s.board.fruitLoc.x ∧ s.snake.node.y + p.2 = s.board.fruitLoc.y)
    (h : eatFruit rnd k fuel s = some t) :
    t.snake.tail.length = s.snake.tail.length + 1 ∧
    t.board.score = s.board.score + s.board.score_increment ∧
    (t.board.grid s.board.fruitLoc.x s.board.fruitLoc.y).containsFruit = false ∧
    ¬((t.board.fruitLoc.x - s.snake.node.x).natAbs ≤ 1 ∧
      (t.board.fruitLoc.y - s.snake.node.y).natAbs ≤ 1) ∧
    (t.board.grid t.board.fruitLoc.x t.board.fruitLoc.y).containsFruit = true := by
  have hnear : (s.board.fruitLoc.x - s.snake.node.x).natAbs ≤ 1 ∧
      (s.board.fruitLoc.y - s.snake.node.y).natAbs ≤ 1 := by
    obtain ⟨p, hp, hf⟩ := collisionCheck_eats_fruit s hclass
    obtain ⟨he1, he2⟩ := hfl p hp hf
    obtain ⟨hs1, hs2⟩ := collisionOffsets_small p hp
    constructor
    · rw [← he1]; omega
    · rw [← he2]; omega
  simp only [eatFruit, generateFruit, extendSnake, incrementScore] at h
  cases hgc : generateCoordinate rnd s.snake.node.x s.snake.node.y k fuel with
  | none => rw [hgc] at h; simp at h
  | some c =>
    rw [hgc] at h
    simp only [Option.some.injEq] at h
    subst h
    have hcvalid := generateCoordinate_sound rnd s.snake.node.x s.snake.node.y k fuel c hgc
    have hcfar : ¬((c.x - s.snake.node.x).natAbs ≤ 1 ∧
        (c.y - s.snake.node.y).natAbs ≤ 1) := hcvalid.2.2
    have hne : ¬(s.board.fruitLoc.x = c.x ∧ s.board.fruitLoc.y = c.y) := by
      rintro ⟨he1, he2⟩
      exact hcfar ⟨by omega, by omega⟩
    refine ⟨?_, ?_, ?_, ?_, ?_⟩
    · simp [extendSnakeTail_length]
    · simp
    · simp only []
      rw [updateCell_eval, if_neg hne, updateCell_eval, if_pos ⟨rfl, rfl⟩]
    · simpa using hcfar
    · simp only []
      rw [updateCell_eval, if_pos ⟨rfl, rfl⟩]

/-- A grid whose only flag is a fruit at (30, 29). -/
def fruitAheadGrid : Grid := fun i j =>
  { containsHead := false, containsSnake := false,
    containsWall := false, containsFruit := decide (i = 30 ∧ j = 29) }

/-- A state whose head at (30, 30) has the fruit (30, 29) inside its 3 x 3
collision window, so the tick classifies as EATS_FRUIT. -/
def fruitAheadState : GameState :=
  { board := { grid := fruitAheadGrid, score := 0, score_increment := 10,
               gameStatus := START_GAME, fruitLoc := { x := 30, y := 29 } },
    snake := { node := { x := 30, y := 30, prev_x := 30, prev_y := 30 },
               tail := [], movement_direction := DIRECTION_UP } }

/-- The state eatFruit produces from fruitAheadState with the all-zero draw
stream. -/
def eatResultState : GameState :=
  (eatFruit rndZero 0 1 fruitAheadState).getD fruitAheadState

theorem eatFruit_spec_witness :
    eatResultState.snake.tail.length = fruitAheadState.snake.tail.length + 1 ∧
    eatResultState.board.score
      = fruitAheadState.board.score + fruitAheadState.board.score_increment ∧
    (eatResultState.board.grid fruitAheadState.board.fruitLoc.x
        fruitAheadState.board.fruitLoc.y).containsFruit = false ∧
    ¬((eatResultState.board.fruitLoc.x - fruitAheadState.snake.node.x).natAbs ≤ 1 ∧
      (eatResultState.board.fruitLoc.y - fruitAheadState.snake.node.y).natAbs ≤ 1) ∧
    (eatResultState.board.grid eatResultState.board.fruitLoc.x
        eatResultState.board.fruitLoc.y).containsFruit = true :=
  eatFruit_spec fruitAheadState rndZero 0 1 eatResultState (by decide) (by decide) rfl

/-!  Reset. -/

/-- C6: after a successful resetGame, every in-bounds cell is a wall
exactly on the border, head-flagged exactly at the start cell, free of
snake flags, and fruit-flagged exactly at the new fruit location; the snake
is the single head node at the grid centre with previous equal to current
coordinates and direction up; the score is zero; and the new fruit
satisfies the margin and head-exclusion placement rule. -/
theorem resetGame_spec (s : GameState) (rnd : Nat → Nat) (k fuel : Nat) (t : GameState)
    (h : resetGame rnd k fuel s = some t) :
    (∀ i j : Int, inGridBounds i j = true →
       ((t.board.grid i j).containsWall = borderWall i j ∧
        ((t.board.grid i j).containsHead = true ↔
          (i = SNAKEHEADSTARTX ∧ j = SNAKEHEADSTARTY)) ∧
        (t.board.grid i j).containsSnake = false ∧
        ((t.board.grid i j).containsFruit = true ↔
          (i = t.board.fruitLoc.x ∧ j = t.board.fruitLoc.y)))) ∧
    t.snake.node = { x := SNAKEHEADSTARTX, y := SNAKEHEADSTARTY,
                     prev_x := SNAKEHEADSTARTX, prev_y := SNAKEHEADSTARTY } ∧
    t.snake.tail = [] ∧
    t.snake.movement_direction = DIRECTION_UP ∧
    t.board.score = 0 ∧
    (FRUIT_MARGIN ≤ t.board.fruitLoc.x ∧ t.board.fruitLoc.x < GAMEGRIDCOLS - FRUIT_MARGIN) ∧
    (FRUIT_MARGIN ≤ t.board.fruitLoc.y ∧ t.board.fruitLoc.y < GAMEGRIDROWS - FRUIT_MARGIN) ∧
    ¬((t.board.fruitLoc.x - SNAKEHEADSTARTX).natAbs ≤ 1 ∧
      (t.board.fruitLoc.y - SNAKEHEADSTARTY).natAbs ≤ 1) := by
  simp only [resetGame, resetGameGrid, resetSnake, generateFruit] at h
  cases hgc : generateCoordinate rnd SNAKEHEADSTARTX SNAKEHEADSTARTY k fuel with
  | none => rw [hgc] at h; simp at h
  | some c =>
    rw [hgc] at h
    simp only [Option.some.injEq] at h
    subst h
    have hcvalid := generateCoordinate_sound rnd SNAKEHEADSTARTX SNAKEHEADSTARTY k fuel c hgc
    refine ⟨?_, by simp, by simp, by simp, by simp, ?_, ?_, ?_⟩
    · intro i j hb
      refine ⟨?_, ?_, ?_, ?_⟩
      · simp only [updateCell_fruit_containsWall, updateCell_head_containsWall]
        simp [hb, initCell]
      · simp only [updateCell_fruit_containsHead]
        rw [updateCell_eval]
        by_cases hc : i = SNAKEHEADSTARTX ∧ j = SNAKEHEADSTARTY
        · rw [if_pos hc]
          simp [hc]
        · rw [if_neg hc]
          simp [hb, initCell, hc]
      · simp only [updateCell_fruit_containsSnake]
        rw [updateCell_eval]
        split_ifs <;> simp [hb, initCell]
      · simp only []
        rw [updateCell_eval]
        by_cases hc : i = c.x ∧ j = c.y
        · rw [if_pos hc]
          simp [hc]
        · rw [if_neg hc]
          rw [updateCell_eval]
          split_ifs with hc2
          · simp [hc]
          · simp only [updateCell_head_containsFruit]
            simp [hb, initCell, hc]
    · simpa using hcvalid.1
    · simpa using hcvalid.2.1
    · simpa using hcvalid.2.2

/-- The state resetGame produces from the concrete finished game with the
all-zero draw stream. -/
def resetGameResultState : GameState :=
  (resetGame rndZero 0 1 gameOverState).getD gameOverState

theorem resetGame_spec_witness :
    (resetGameResultState.board.grid 0 0).containsWall = borderWall 0 0 ∧
    resetGameResultState.snake.tail = [] ∧
    resetGameResultState.board.score = 0 :=
  ⟨((resetGame_spec gameOverState rndZero 0 1 resetGameResultState rfl).1 0 0 (by decide)).1,
   (resetGame_spec gameOverState rndZero 0 1 resetGameResultState rfl).2.2.1,
   (resetGame_spec gameOverState rndZero 0 1 resetGameResultState rfl).2.2.2.2.1⟩

/-!  The single-head-cell invariant. -/

/-- A grid whose only flag is a head flag at (20, 20). -/
def headAt20Grid : Grid := fun i j =>
  { containsHead := decide (i = 20 ∧ j = 20), containsSnake := false,
    containsWall := false, containsFruit := false }

/-- A state whose lone head sits at (20, 20), away from the start cell. -/
def headAt20State : GameState :=
  { board := { grid := headAt20Grid, score := 0, score_increment := 10,
               gameStatus := START_GAME, fruitLoc := { x := 3, y := 3 } },
    snake := { node := { x := 20, y := 20, prev_x := 20, prev_y := 20 },
               tail := [], movement_direction := DIRECTION_UP } }

/-- C7 counterexample: resetSnake does not clear the old head cell's flag —
run on a state whose head flag sits at (20, 20), it leaves that flag set
and raises a second one at the start cell (30, 30), so after resetSnake
two distinct cells are head-flagged.  (In the program the clearing is done
beforehand by resetGameGrid inside resetGame.) -/
theorem resetSnake_two_head_flags_cex :
    ((resetSnake headAt20State).board.grid 20 20).containsHead = true ∧
    ((resetSnake headAt20State).board.grid 30 30).containsHead = true ∧
    ((20, 20) : Int × Int) ≠ ((30, 30) : Int × Int) := by
  decide

/-- C7 (amended): exactly one cell is head-flagged at every reachable
point — gameSetup marks exactly the start cell; moveSnake, given a state
whose unique head-flagged cell is the head node's cell, again leaves
exactly one head-flagged cell, the new head cell; and resetGame (whose
resetGameGrid pass clears every in-bounds head flag before resetSnake sets
the new one — resetSnake alone does not clear the old flag), given that all
head flags sit in bounds, leaves exactly the start cell flagged. -/
theorem single_head_cell_invariant :
    (∀ (s : GameState) (rnd : Nat → Nat) (k fuel : Nat) (t : GameState),
       gameSetup rnd k fuel s = some t →
       ∀ p : Int × Int, ((t.board.grid p.1 p.2).containsHead = true ↔
         p = ((SNAKEHEADSTARTX, SNAKEHEADSTARTY) : Int × Int))) ∧
    (∀ s : GameState,
       (∀ p : Int × Int, ((s.board.grid p.1 p.2).containsHead = true ↔
         p = ((s.snake.node.x, s.snake.node.y) : Int × Int))) →
       ∀ p : Int × Int, (((moveSnake s).board.grid p.1 p.2).containsHead = true ↔
         p = (((moveSnake s).snake.node.x, (moveSnake s).snake.node.y) : Int × Int))) ∧
    (∀ (s : GameState) (rnd : Nat → Nat) (k fuel : Nat) (t : GameState),
       resetGame rnd k fuel s = some t →
       (∀ p : Int × Int, (s.board.grid p.1 p.2).containsHead = true →
         inGridBounds p.1 p.2 = true) →
       ∀ p : Int × Int, ((t.board.grid p.1 p.2).containsHead = true ↔
         p = ((SNAKEHEADSTARTX, SNAKEHEADSTARTY) : Int × Int))) := by
  refine ⟨?_, ?_, ?_⟩
  · intro s rnd k fuel t h p
    simp only [gameSetup, initializeFruit, initializeSnake, initializeGame] at h
    cases hgc : generateCoordinate rnd SNAKEHEADSTARTX SNAKEHEADSTARTY k fuel with
    | none => rw [hgc] at h; simp at h
    | some c =>
      rw [hgc] at h
      simp only [Option.some.injEq] at h
      subst h
      obtain ⟨pa, pb⟩ := p
      simp only [updateCell_fruit_containsHead]
      rw [updateCell_eval]
      by_cases hc : pa = SNAKEHEADSTARTX ∧ pb = SNAKEHEADSTARTY
      · rw [if_pos hc]
        simp [hc, Prod.ext_iff]
      · rw [if_neg hc]
        have hz : (initGrid pa pb).containsHead = false := by
          simp only [initGrid]
          split_ifs <;> rfl
        rw [hz]
        simp [Prod.ext_iff, hc]
  · intro s hhd p
    obtain ⟨pa, pb⟩ := p
    simp only [moveSnake]
    rw [moveSnakeBody_containsHead]
    rw [updateCell_eval]
    by_cases hc : pa = (movedHead s.snake.node s.snake.movement_direction).x ∧
        pb = (movedHead s.snake.node s.snake.movement_direction).y
    · rw [if_pos hc]
      simp [hc, Prod.ext_iff]
    · rw [if_neg hc]
      rw [updateCell_eval]
      split_ifs with hc2
      · simp [Prod.ext_iff, hc]
      · rw [hhd (pa, pb)]
        simp [Prod.ext_iff, hc, hc2]
  · intro s rnd k fuel t h hin p
    simp only [resetGame, resetGameGrid, resetSnake, generateFruit] at h
    cases hgc : generateCoordinate rnd SNAKEHEADSTARTX SNAKEHEADSTARTY k fuel with
    | none => rw [hgc] at h; simp at h
    | some c =>
      rw [hgc] at h
      simp only [Option.some.injEq] at h
      subst h
      obtain ⟨pa, pb⟩ := p
      simp only [updateCell_fruit_containsHead]
      rw [updateCell_eval]
      by_cases hc : pa = SNAKEHEADSTARTX ∧ pb = SNAKEHEADSTARTY
      · rw [if_pos hc]
        simp [hc, Prod.ext_iff]
      · rw [if_neg hc]
        by_cases hbnd : inGridBounds pa pb = true
        · rw [if_pos hbnd]
          simp [initCell, Prod.ext_iff, hc]
        · rw [if_neg hbnd]
          have hz : (s.board.grid pa pb).containsHead = false := by
            by_cases hsg : (s.board.grid pa pb).containsHead = true
            · exact absurd (hin (pa, pb) hsg) hbnd
            · exact Bool.not_eq_true _ ▸ hsg
          rw [hz]
          simp [Prod.ext_iff, hc]

/-- The state gameSetup produces from plainState with the all-zero draw
stream. -/
def setupResultState : GameState :=
  (gameSetup rndZero 0 1 plainState).getD plainState

/-- A grid whose only flag is a head flag at (5, 5). -/
def headAt5Grid : Grid := fun i j =>
  { containsHead := decide (i = 5 ∧ j = 5), containsSnake := false,
    containsWall := false, containsFruit := false }

/-- A state whose lone head sits at (5, 5), consistently flagged. -/
def headAt5State : GameState :=
  { board := { grid := headAt5Grid, score := 0, score_increment := 10,
               gameStatus := START_GAME, fruitLoc := { x := 3, y := 3 } },
    snake := { node := { x := 5, y := 5, prev_x := 5, prev_y := 5 },
               tail := [], movement_direction := DIRECTION_UP } }

theorem single_head_cell_invariant_witness :
    (setupResultState.board.grid 30 30).containsHead = true ∧
    ((moveSnake headAt5State).board.grid 5 4).containsHead = true ∧
    (resetGameResultState.board.grid 30 30).containsHead = true :=
  ⟨(single_head_cell_invariant.1 plainState rndZero 0 1 setupResultState rfl
      (30, 30)).mpr (by decide),
   (single_head_cell_invariant.2.1 headAt5State
      (by
        intro p
        obtain ⟨pa, pb⟩ := p
        simp [headAt5State, headAt5Grid, Prod.ext_iff])
      (5, 4)).mpr (by decide),
   (single_head_cell_invariant.2.2 gameOverState rndZero 0 1 resetGameResultState rfl
      (by
        intro p hp
        simp [gameOverState, blankGrid, outOfBoundsCell] at hp)
      (30, 30)).mpr (by decide)⟩
